import Mathlib

/-!
Verification of the `go-ghcrawl` repository activity scoring engine.

The scoring routine `GetRepositoryActivityScore` (package `cli`) turns a
repository snapshot fetched from a hosting API plus a curated
`InnerSourceMetadata` record into a single integer activity score, and
records that score on the metadata record.

Embedding choices:
* Go `float64` arithmetic on day counts is modelled by exact rationals `ℚ`;
  Go's `int(x)` float-to-int conversion truncates toward zero, modelled by
  `truncQ`.  The literal `2.74` is the rational `274/100`.
* Go `int` arithmetic on scores is modelled by `ℤ`; the engagement counters
  are non-negative (`ℕ`) per the data model, so Go's truncating integer
  division on them is `Nat` division.
* `math.Log` is modelled by `Real.log` (the one non-executable step, kept
  isolated in `logCompress`).
* Go `len(s)` on a string is its UTF-8 byte length, `String.utf8ByteSize`.
* Timestamps are measured in days (as `ℚ`); `time.Since(t)` in days at
  evaluation instant `now` is `now - t`.
-/

/-- Snapshot of repository statistics from the hosting API.  The four
counters and the description are pointers in the Go source (absent when the
upstream payload omits them), hence `Option`; the two timestamps are read
through total accessors and are plain values, measured here in days. -/
structure RepositorySnapshot where
  ForksCount : Option ℕ
  SubscribersCount : Option ℕ
  StargazersCount : Option ℕ
  OpenIssuesCount : Option ℕ
  Description : Option String
  UpdatedAt : ℚ
  CreatedAt : ℚ
deriving DecidableEq

/-- Curated `innersource.json` metadata record; `Score` is the field the
scoring engine writes. -/
structure InnerSourceMetadata where
  Title : String
  Motivation : String
  Contributions : List String
  Skills : List String
  Logo : String
  Docs : String
  Language : String
  Participation : String
  Guidelines : String
  Score : ℤ
deriving DecidableEq

/-- A repository paired with its curated metadata (struct `Repo` in the
source). -/
structure Repo where
  GH : RepositorySnapshot
  Metadata : InnerSourceMetadata
deriving DecidableEq

/-- Go's `int(x)` conversion of a float: truncation toward zero. -/
def truncQ (q : ℚ) : ℤ := if 0 ≤ q then ⌊q⌋ else ⌈q⌉

/-- Steps 1-2 of the algorithm: baseline 50 plus the weighted engagement
sum `forks*5 + subscribers + stargazers/3 + openIssues/5` with truncating
division. -/
def engagementScore (forks subs stars issues : ℕ) : ℕ :=
  50 + forks * 5 + subs + stars / 3 + issues / 5

/-- Step 3: recency multiplier
`int((1 + (100 - math.Min(daysSinceLastUpdate, 100))) / 100)`. -/
def updateMultiplier (daysSinceLastUpdate : ℚ) : ℤ :=
  truncQ ((1 + (100 - min daysSinceLastUpdate 100)) / 100)

/-- Step 4: boost `int(1000 - math.Min(daysSinceLastUpdate, 365)*2.74)`. -/
def boostBase (daysSinceLastUpdate : ℚ) : ℤ :=
  truncQ (1000 - min daysSinceLastUpdate 365 * (274 / 100))

/-- Step 5: creation decay factor
`int((365 - math.Min(daysSinceCreation, 365)) / 365)`. -/
def creationBoost (daysSinceCreation : ℚ) : ℤ :=
  truncQ ((365 - min daysSinceCreation 365) / 365)

/-- Steps 1-8 of the algorithm: the pre-compression score.  Engagement sum,
recency multiplier, decayed boost, then the description/motivation bonus of
50 and the guidelines bonus of 100. -/
def preScore (forks subs stars issues : ℕ) (description motivation guidelines : String)
    (daysSinceLastUpdate daysSinceCreation : ℚ) : ℤ :=
  let score : ℤ :=
    (engagementScore forks subs stars issues : ℤ) * updateMultiplier daysSinceLastUpdate
  let boost : ℤ := boostBase daysSinceLastUpdate * creationBoost daysSinceCreation
  let score := score + boost
  let score :=
    if 30 < description.utf8ByteSize ∨ 30 < motivation.utf8ByteSize then score + 50 else score
  if guidelines ≠ "" then score + 100 else score

/-- Go's `int(x)` truncation toward zero, on the reals (for the logarithmic
step). -/
noncomputable def truncR (x : ℝ) : ℤ := if 0 ≤ x then ⌊x⌋ else ⌈x⌉

/-- Step 9: logarithmic compression,
`if score > 3000 then score = int(3000 + math.Log(score)*100)`. -/
noncomputable def logCompress (score : ℤ) : ℤ :=
  if 3000 < score then truncR (3000 + Real.log (score : ℝ) * 100) else score

/-- Steps 1-10: compression applied to the pre-compression score, then the
final normalization `math.Round(score - 50)` (exact on integers, hence
subtraction). -/
noncomputable def finalScore (forks subs stars issues : ℕ)
    (description motivation guidelines : String)
    (daysSinceLastUpdate daysSinceCreation : ℚ) : ℤ :=
  logCompress (preScore forks subs stars issues description motivation guidelines
    daysSinceLastUpdate daysSinceCreation) - 50

/-- Modelled from the spec: the error taxonomy of §7.  The Go source
dereferences the optional snapshot fields unchecked (it would crash on a
nil pointer); the spec requires the engine to report a `MissingFieldError`
naming the absent field instead. -/
inductive ScoreError where
  | MissingFieldError (field : String)
deriving DecidableEq

/-- The scoring engine.  Validation of the optional fields is modelled from
the spec (the source would panic on a nil dereference); the fields are
checked in the order the source reads them.  On success the score is
computed from the snapshot, the metadata's `Motivation` and `Guidelines`,
and the instant `now`, and is recorded on the returned metadata; on error
the metadata is returned unchanged. -/
noncomputable def GetRepositoryActivityScore (repo : Repo) (now : ℚ) :
    Except ScoreError ℤ × InnerSourceMetadata :=
  match repo.GH.ForksCount with
  | none => (Except.error (ScoreError.MissingFieldError "forksCount"), repo.Metadata)
  | some forks =>
    match repo.GH.SubscribersCount with
    | none => (Except.error (ScoreError.MissingFieldError "subscribersCount"), repo.Metadata)
    | some subs =>
      match repo.GH.StargazersCount with
      | none => (Except.error (ScoreError.MissingFieldError "stargazersCount"), repo.Metadata)
      | some stars =>
        match repo.GH.OpenIssuesCount with
        | none => (Except.error (ScoreError.MissingFieldError "openIssuesCount"), repo.Metadata)
        | some issues =>
          match repo.GH.Description with
          | none => (Except.error (ScoreError.MissingFieldError "description"), repo.Metadata)
          | some description =>
            let s := finalScore forks subs stars issues description
              repo.Metadata.Motivation repo.Metadata.Guidelines
              (now - repo.GH.UpdatedAt) (now - repo.GH.CreatedAt)
            (Except.ok s, { repo.Metadata with Score := s })

/-! ### Arithmetic facts about the truncating stages -/

lemma truncQ_of_nonneg {q : ℚ} (h : 0 ≤ q) : truncQ q = ⌊q⌋ := if_pos h

lemma updateMultiplier_eq_one {d : ℚ} (h0 : 0 ≤ d) (h1 : d ≤ 1) :
    updateMultiplier d = 1 := by
  have hmin : min d 100 = d := min_eq_left (by linarith)
  rw [updateMultiplier, hmin, truncQ_of_nonneg (by linarith)]
  rw [Int.floor_eq_iff]
  constructor
  · rw [le_div_iff₀ (by norm_num)]
    push_cast
    linarith
  · rw [div_lt_iff₀ (by norm_num)]
    push_cast
    linarith

lemma updateMultiplier_eq_zero {d : ℚ} (h1 : 1 < d) :
    updateMultiplier d = 0 := by
  have hm1 : 1 < min d 100 := lt_min h1 (by norm_num)
  have hm2 : min d 100 ≤ 100 := min_le_right d 100
  rw [updateMultiplier, truncQ_of_nonneg (by apply div_nonneg (by linarith) (by norm_num))]
  · rw [Int.floor_eq_zero_iff, Set.mem_Ico]
    constructor
    · apply div_nonneg (by linarith) (by norm_num)
    · rw [div_lt_one (by norm_num)]
      linarith

lemma updateMultiplier_nonneg (d : ℚ) : 0 ≤ updateMultiplier d := by
  have hm : min d 100 ≤ 100 := min_le_right d 100
  rw [updateMultiplier, truncQ_of_nonneg (by apply div_nonneg (by linarith) (by norm_num))]
  exact Int.floor_nonneg.mpr (by apply div_nonneg (by linarith) (by norm_num))

lemma creationBoost_eq_zero {dc : ℚ} (h : 0 < dc) : creationBoost dc = 0 := by
  have hm1 : 0 < min dc 365 := lt_min h (by norm_num)
  have hm2 : min dc 365 ≤ 365 := min_le_right dc 365
  rw [creationBoost, truncQ_of_nonneg (by apply div_nonneg (by linarith) (by norm_num))]
  rw [Int.floor_eq_zero_iff, Set.mem_Ico]
  constructor
  · apply div_nonneg (by linarith) (by norm_num)
  · rw [div_lt_one (by norm_num)]
    linarith

lemma creationBoost_zero : creationBoost 0 = 1 := by
  norm_num [creationBoost, truncQ]

lemma boostBase_zero : boostBase 0 = 1000 := by
  norm_num [boostBase, truncQ]

lemma updateMultiplier_zero : updateMultiplier 0 = 1 :=
  updateMultiplier_eq_one le_rfl zero_le_one

lemma logCompress_of_le {s : ℤ} (h : s ≤ 3000) : logCompress s = s :=
  if_neg (by omega)

lemma preScore_baseline : preScore 0 0 0 0 "" "" "" 0 0 = 1050 := by
  simp [preScore, engagementScore, updateMultiplier_zero, boostBase_zero, creationBoost_zero,
    String.utf8ByteSize]

lemma compute_ok (forks subs stars issues : ℕ) (description : String)
    (m : InnerSourceMetadata) (u c now : ℚ) :
    GetRepositoryActivityScore
      ⟨⟨some forks, some subs, some stars, some issues, some description, u, c⟩, m⟩ now =
      (Except.ok (finalScore forks subs stars issues description m.Motivation m.Guidelines
          (now - u) (now - c)),
        { m with Score := (finalScore forks subs stars issues description m.Motivation
            m.Guidelines (now - u) (now - c)) }) := rfl

lemma preScore_eq_base_add (forks subs stars issues : ℕ)
    (desc mot g : String) (d dc : ℚ) :
    preScore forks subs stars issues desc mot g d dc =
      (engagementScore forks subs stars issues : ℤ) * updateMultiplier d
        + boostBase d * creationBoost dc
        + (if 30 < desc.utf8ByteSize ∨ 30 < mot.utf8ByteSize then 50 else 0)
        + (if g ≠ "" then 100 else 0) := by
  simp only [preScore]
  split_ifs <;> ring

lemma log_nonneg_of_gt3000 {s : ℤ} (h : 3000 < s) : 0 ≤ Real.log (s : ℝ) := by
  apply Real.log_nonneg
  have : (3000 : ℝ) < (s : ℝ) := by exact_mod_cast h
  linarith

lemma logCompress_of_gt {s : ℤ} (h : 3000 < s) :
    logCompress s = ⌊(3000 : ℝ) + Real.log (s : ℝ) * 100⌋ := by
  rw [logCompress, if_pos h, truncR, if_pos]
  have := log_nonneg_of_gt3000 h
  nlinarith

lemma logCompress_growth {s1 s2 : ℤ} (h1 : 3000 < s1) (h2 : s1 + 2 ≤ s2) :
    logCompress s2 - logCompress s1 < s2 - s1 := by
  have h1' : 3000 < s2 := by omega
  rw [logCompress_of_gt h1, logCompress_of_gt h1']
  have hs1R : (3000 : ℝ) < (s1 : ℝ) := by exact_mod_cast h1
  have hs2R : (s1 : ℝ) + 2 ≤ (s2 : ℝ) := by exact_mod_cast h2
  have hs1pos : (0 : ℝ) < (s1 : ℝ) := by linarith
  have hs2pos : (0 : ℝ) < (s2 : ℝ) := by linarith
  set A1 : ℝ := (3000 : ℝ) + Real.log (s1 : ℝ) * 100 with hA1
  set A2 : ℝ := (3000 : ℝ) + Real.log (s2 : ℝ) * 100 with hA2
  have hfloor2 : (⌊A2⌋ : ℝ) ≤ A2 := Int.floor_le A2
  have hfloor1 : A1 < (⌊A1⌋ : ℝ) + 1 := Int.lt_floor_add_one A1
  have hlogdiv : Real.log ((s2 : ℝ) / (s1 : ℝ)) = Real.log (s2 : ℝ) - Real.log (s1 : ℝ) :=
    Real.log_div (by linarith) (by linarith)
  have hlogle : Real.log ((s2 : ℝ) / (s1 : ℝ)) ≤ (s2 : ℝ) / (s1 : ℝ) - 1 :=
    Real.log_le_sub_one_of_pos (by positivity)
  have hdivle : (s2 : ℝ) / (s1 : ℝ) - 1 = ((s2 : ℝ) - (s1 : ℝ)) / (s1 : ℝ) := by
    field_simp
  have hdelta : ((s2 : ℝ) - (s1 : ℝ)) / (s1 : ℝ) ≤ ((s2 : ℝ) - (s1 : ℝ)) / 3000 := by
    apply div_le_div_of_nonneg_left (by linarith) (by norm_num) (by linarith)
  have hkey : A2 - A1 ≤ ((s2 : ℝ) - (s1 : ℝ)) / 30 := by
    have : Real.log (s2 : ℝ) - Real.log (s1 : ℝ) ≤ ((s2 : ℝ) - (s1 : ℝ)) / 3000 := by
      rw [← hlogdiv]
      calc Real.log ((s2 : ℝ) / (s1 : ℝ)) ≤ (s2 : ℝ) / (s1 : ℝ) - 1 := hlogle
        _ = ((s2 : ℝ) - (s1 : ℝ)) / (s1 : ℝ) := hdivle
        _ ≤ ((s2 : ℝ) - (s1 : ℝ)) / 3000 := hdelta
    rw [hA1, hA2]
    linarith
  have hR : ((⌊A2⌋ - ⌊A1⌋ : ℤ) : ℝ) < (((s2 - s1) : ℤ) : ℝ) := by
    push_cast
    linarith
  exact_mod_cast hR

lemma preScore_le_of_engagement_le {f1 s1 st1 i1 f2 s2 st2 i2 : ℕ}
    (h : engagementScore f1 s1 st1 i1 ≤ engagementScore f2 s2 st2 i2)
    (desc mot g : String) (d dc : ℚ) :
    preScore f1 s1 st1 i1 desc mot g d dc ≤ preScore f2 s2 st2 i2 desc mot g d dc := by
  rw [preScore_eq_base_add, preScore_eq_base_add]
  have hmul : (engagementScore f1 s1 st1 i1 : ℤ) * updateMultiplier d ≤
      (engagementScore f2 s2 st2 i2 : ℤ) * updateMultiplier d :=
    mul_le_mul_of_nonneg_right (by exact_mod_cast h) (updateMultiplier_nonneg d)
  linarith

lemma finalScore_baseline : finalScore 0 0 0 0 "" "" "" 0 0 = 1000 := by
  rw [finalScore, preScore_baseline, logCompress_of_le (by norm_num)]
  norm_num

/-! ### Claims -/

/-- C1: for the baseline input (all counters zero, updated and created at the
evaluation instant, empty description, motivation and guidelines) the engine
returns exactly 1000 and records 1000 in the metadata score: engagement sum
contributes 0, the recency multiplier is 1, the boost is 1000 with creation
factor 1, no bonuses apply, no log compression, and the final normalization
yields round(1050 - 50) = 1000. -/
theorem C1_baseline_score (now : ℚ) (m : InnerSourceMetadata)
    (hmot : m.Motivation = "") (hguid : m.Guidelines = "") :
    GetRepositoryActivityScore
      ⟨⟨some 0, some 0, some 0, some 0, some "", now, now⟩, m⟩ now =
      (Except.ok 1000, { m with Score := 1000 }) := by
  rw [compute_ok, hmot, hguid, sub_self, finalScore, preScore_baseline,
    logCompress_of_le (by norm_num)]
  norm_num

/-- Witness for C1 at a concrete metadata record and instant. -/
theorem C1_baseline_score_witness :
    GetRepositoryActivityScore
      ⟨⟨some 0, some 0, some 0, some 0, some "", 0, 0⟩,
        ⟨"portal", "", [], [], "", "", "", "", "", 7⟩⟩ 0 =
      (Except.ok 1000, ⟨"portal", "", [], [], "", "", "", "", "", 1000⟩) :=
  C1_baseline_score 0 ⟨"portal", "", [], [], "", "", "", "", "", 7⟩ rfl rfl

/-- C2, counterexample: the claim says the legacy recency multiplier is 1
only at daysSinceUpdate = 0 and 0 for every positive daysSinceUpdate, but at
daysSinceUpdate = 1 (which is positive) the multiplier is
trunc((1 + (100 - 1))/100) = trunc(1) = 1, not 0. -/
theorem C2_recency_multiplier_counterexample :
    (0 : ℚ) < 1 ∧ updateMultiplier 1 = 1 :=
  ⟨by norm_num, updateMultiplier_eq_one (by norm_num) le_rfl⟩

/-- C2, amended: for nonnegative daysSinceUpdate the legacy recency
multiplier equals 1 exactly when daysSinceUpdate is at most 1, and equals 0
for every daysSinceUpdate strictly greater than 1. -/
theorem C2_recency_multiplier_amended (d : ℚ) (h0 : 0 ≤ d) :
    (updateMultiplier d = 1 ↔ d ≤ 1) ∧ (1 < d → updateMultiplier d = 0) := by
  refine ⟨⟨fun h => ?_, fun h => updateMultiplier_eq_one h0 h⟩,
    fun h => updateMultiplier_eq_zero h⟩
  by_contra hgt
  push_neg at hgt
  rw [updateMultiplier_eq_zero hgt] at h
  exact absurd h (by norm_num)

/-- Witness for the amended C2 at daysSinceUpdate = 2. -/
theorem C2_recency_multiplier_amended_witness :
    (0 : ℚ) ≤ 2 ∧
      ((updateMultiplier 2 = 1 ↔ (2 : ℚ) ≤ 1) ∧ ((1 : ℚ) < 2 → updateMultiplier 2 = 0)) :=
  ⟨by decide, C2_recency_multiplier_amended 2 (by decide)⟩

/-- C3: a snapshot whose required numeric fields (or description) are
absent makes the engine fail with a MissingFieldError naming the first
absent field in read order, as an explicit reported error, and the metadata
record is returned unmodified (no partial score is recorded).  The error
contract is modelled from the spec, the Go source dereferencing the nil
pointer instead. -/
theorem C3_missing_field (repo : Repo) (now : ℚ) :
    (repo.GH.ForksCount = none →
      GetRepositoryActivityScore repo now =
        (Except.error (ScoreError.MissingFieldError "forksCount"), repo.Metadata)) ∧
    (∀ f, repo.GH.ForksCount = some f → repo.GH.SubscribersCount = none →
      GetRepositoryActivityScore repo now =
        (Except.error (ScoreError.MissingFieldError "subscribersCount"), repo.Metadata)) ∧
    (∀ f s, repo.GH.ForksCount = some f → repo.GH.SubscribersCount = some s →
      repo.GH.StargazersCount = none →
      GetRepositoryActivityScore repo now =
        (Except.error (ScoreError.MissingFieldError "stargazersCount"), repo.Metadata)) ∧
    (∀ f s st, repo.GH.ForksCount = some f → repo.GH.SubscribersCount = some s →
      repo.GH.StargazersCount = some st → repo.GH.OpenIssuesCount = none →
      GetRepositoryActivityScore repo now =
        (Except.error (ScoreError.MissingFieldError "openIssuesCount"), repo.Metadata)) ∧
    (∀ f s st oi, repo.GH.ForksCount = some f → repo.GH.SubscribersCount = some s →
      repo.GH.StargazersCount = some st → repo.GH.OpenIssuesCount = some oi →
      repo.GH.Description = none →
      GetRepositoryActivityScore repo now =
        (Except.error (ScoreError.MissingFieldError "description"), repo.Metadata)) := by
  obtain ⟨⟨F, S, St, Oi, D, u, c⟩, m⟩ := repo
  refine ⟨?_, ?_, ?_, ?_, ?_⟩
  · intro h
    subst h
    rfl
  · intro f hf h
    subst hf
    subst h
    rfl
  · intro f s hf hs h
    subst hf
    subst hs
    subst h
    rfl
  · intro f s st hf hs hst h
    subst hf
    subst hs
    subst hst
    subst h
    rfl
  · intro f s st oi hf hs hst hoi h
    subst hf
    subst hs
    subst hst
    subst hoi
    subst h
    rfl

/-- Witness for C3: a concrete snapshot lacking forksCount. -/
theorem C3_missing_field_witness :
    GetRepositoryActivityScore
      ⟨⟨none, some 1, some 2, some 3, some "d", 0, 0⟩,
        ⟨"t", "mo", [], [], "", "", "", "", "g", 4⟩⟩ 5 =
      (Except.error (ScoreError.MissingFieldError "forksCount"),
        ⟨"t", "mo", [], [], "", "", "", "", "g", 4⟩) :=
  (C3_missing_field
    ⟨⟨none, some 1, some 2, some 3, some "d", 0, 0⟩,
      ⟨"t", "mo", [], [], "", "", "", "", "g", 4⟩⟩ 5).1 rfl

/-- C4: the score is a pure function of the snapshot, the metadata's
motivation and guidelines texts, and the instant: two metadata records
agreeing on motivation and guidelines yield the same score outcome whatever
their other fields (title, contributions, skills, logo, docs, language,
participation, prior score) contain. -/
theorem C4_pure_function (gh : RepositorySnapshot) (m1 m2 : InnerSourceMetadata)
    (now : ℚ) (hmot : m1.Motivation = m2.Motivation)
    (hguid : m1.Guidelines = m2.Guidelines) :
    (GetRepositoryActivityScore ⟨gh, m1⟩ now).1 =
      (GetRepositoryActivityScore ⟨gh, m2⟩ now).1 := by
  obtain ⟨F, S, St, Oi, D, u, c⟩ := gh
  cases F <;> cases S <;> cases St <;> cases Oi <;> cases D <;>
    simp [GetRepositoryActivityScore, hmot, hguid]

/-- Witness for C4: two concrete metadata records differing in every field
except motivation and guidelines. -/
theorem C4_pure_function_witness :
    (GetRepositoryActivityScore
      ⟨⟨some 1, some 2, some 3, some 4, some "desc", 0, 1⟩,
        ⟨"a", "mot", ["x"], [], "l", "", "go", "p", "gl", 1⟩⟩ 3).1 =
    (GetRepositoryActivityScore
      ⟨⟨some 1, some 2, some 3, some 4, some "desc", 0, 1⟩,
        ⟨"b", "mot", [], ["y"], "", "d", "js", "q", "gl", 9⟩⟩ 3).1 :=
  C4_pure_function ⟨some 1, some 2, some 3, some 4, some "desc", 0, 1⟩
    ⟨"a", "mot", ["x"], [], "l", "", "go", "p", "gl", 1⟩
    ⟨"b", "mot", [], ["y"], "", "d", "js", "q", "gl", 9⟩ 3 rfl rfl

/-- C5: the only mutation the engine performs on shared state is writing
the metadata score once: every other metadata field survives the call
unchanged, on success the recorded score is exactly the returned score, and
on error the metadata is returned entirely unmodified.  The snapshot is a
read-only input of the embedding, so its immutability holds by
construction. -/
theorem C5_frame (repo : Repo) (now : ℚ) :
    (GetRepositoryActivityScore repo now).2.Title = repo.Metadata.Title ∧
    (GetRepositoryActivityScore repo now).2.Motivation = repo.Metadata.Motivation ∧
    (GetRepositoryActivityScore repo now).2.Contributions = repo.Metadata.Contributions ∧
    (GetRepositoryActivityScore repo now).2.Skills = repo.Metadata.Skills ∧
    (GetRepositoryActivityScore repo now).2.Logo = repo.Metadata.Logo ∧
    (GetRepositoryActivityScore repo now).2.Docs = repo.Metadata.Docs ∧
    (GetRepositoryActivityScore repo now).2.Language = repo.Metadata.Language ∧
    (GetRepositoryActivityScore repo now).2.Participation = repo.Metadata.Participation ∧
    (GetRepositoryActivityScore repo now).2.Guidelines = repo.Metadata.Guidelines ∧
    (∀ s, (GetRepositoryActivityScore repo now).1 = Except.ok s →
      (GetRepositoryActivityScore repo now).2.Score = s) ∧
    (∀ e, (GetRepositoryActivityScore repo now).1 = Except.error e →
      (GetRepositoryActivityScore repo now).2 = repo.Metadata) := by
  obtain ⟨⟨F, S, St, Oi, D, u, c⟩, m⟩ := repo
  cases F <;> cases S <;> cases St <;> cases Oi <;> cases D <;>
    simp [GetRepositoryActivityScore]

/-- Witness for C5: at the concrete baseline repository, the recorded score
agrees with the returned score 1000. -/
theorem C5_frame_witness :
    (GetRepositoryActivityScore
      ⟨⟨some 0, some 0, some 0, some 0, some "", 0, 0⟩,
        ⟨"portal", "", [], [], "", "", "", "", "", 7⟩⟩ 0).2.Score = 1000 :=
  (C5_frame
    ⟨⟨some 0, some 0, some 0, some 0, some "", 0, 0⟩,
      ⟨"portal", "", [], [], "", "", "", "", "", 7⟩⟩ 0).2.2.2.2.2.2.2.2.2.1 1000
    (by simp [compute_ok, finalScore_baseline])

/-- C6: the creation-decay factor trunc((365 - min(daysSinceCreation,
365))/365) collapses to 0 for every positive daysSinceCreation and equals 1
exactly at daysSinceCreation = 0, so the boost added in step 6 vanishes for
every repository older than the evaluation instant. -/
theorem C6_creation_decay (d dc : ℚ) :
    (0 < dc → creationBoost dc = 0 ∧ boostBase d * creationBoost dc = 0) ∧
    (dc = 0 → creationBoost dc = 1) := by
  refine ⟨fun h => ⟨creationBoost_eq_zero h, ?_⟩, fun h => ?_⟩
  · rw [creationBoost_eq_zero h, mul_zero]
  · rw [h]
    exact creationBoost_zero

/-- Witness for C6 at daysSinceCreation = 1 and daysSinceUpdate = 40. -/
theorem C6_creation_decay_witness :
    (0 : ℚ) < 1 ∧ (creationBoost 1 = 0 ∧ boostBase 40 * creationBoost 1 = 0) :=
  ⟨by decide, (C6_creation_decay 40 1).1 (by decide)⟩

lemma preScore_baseline_cap :
    preScore 0 0 0 0 "" "" "" (0 - 0) (0 - 0) ≤ 3000 := by
  norm_num [preScore_baseline]

/-- C7: logarithmic compression governs the returned score exactly at the
3000 threshold on the pre-compression score: at or below 3000 the engine
returns that score minus the baseline 50, strictly above 3000 it returns
trunc(3000 + ln(score)·100) minus 50, and the compressed value grows
strictly slower than the uncompressed linear score (over any gap of at
least 2 above the threshold the compressed output increases by strictly
less than the input does). -/
theorem C7_log_compression (forks subs stars issues : ℕ) (description : String)
    (m : InnerSourceMetadata) (u c now : ℚ) :
    (preScore forks subs stars issues description m.Motivation m.Guidelines
        (now - u) (now - c) ≤ 3000 →
      (GetRepositoryActivityScore
        ⟨⟨some forks, some subs, some stars, some issues, some description, u, c⟩,
          m⟩ now).1 =
        Except.ok (preScore forks subs stars issues description m.Motivation
          m.Guidelines (now - u) (now - c) - 50)) ∧
    (3000 < preScore forks subs stars issues description m.Motivation m.Guidelines
        (now - u) (now - c) →
      (GetRepositoryActivityScore
        ⟨⟨some forks, some subs, some stars, some issues, some description, u, c⟩,
          m⟩ now).1 =
        Except.ok (⌊(3000 : ℝ) + Real.log ((preScore forks subs stars issues description
          m.Motivation m.Guidelines (now - u) (now - c) : ℤ) : ℝ) * 100⌋ - 50)) ∧
    (∀ s1 s2 : ℤ, 3000 < s1 → s1 + 2 ≤ s2 →
      logCompress s2 - logCompress s1 < s2 - s1) := by
  refine ⟨fun h => ?_, fun h => ?_, fun s1 s2 h1 h2 => logCompress_growth h1 h2⟩
  · rw [compute_ok, finalScore, logCompress_of_le h]
  · rw [compute_ok, finalScore, logCompress_of_gt h]

/-- Witness for C7: the baseline repository stays below the threshold and
returns its pre-compression score minus 50; above the threshold the growth
bound holds at the pair 3100, 3200. -/
theorem C7_log_compression_witness :
    preScore 0 0 0 0 "" "" "" (0 - 0) (0 - 0) ≤ 3000 ∧
    (GetRepositoryActivityScore
      ⟨⟨some 0, some 0, some 0, some 0, some "", 0, 0⟩,
        ⟨"portal", "", [], [], "", "", "", "", "", 7⟩⟩ 0).1 =
      Except.ok (preScore 0 0 0 0 "" "" "" (0 - 0) (0 - 0) - 50) ∧
    ((3000 : ℤ) < 3100 ∧ (3100 : ℤ) + 2 ≤ 3200 ∧
      logCompress 3200 - logCompress 3100 < 3200 - 3100) :=
  ⟨preScore_baseline_cap,
    (C7_log_compression 0 0 0 0 "" ⟨"portal", "", [], [], "", "", "", "", "", 7⟩ 0 0 0).1
      preScore_baseline_cap,
    by decide, by decide,
    (C7_log_compression 0 0 0 0 "" ⟨"portal", "", [], [], "", "", "", "", "", 7⟩ 0 0 0).2.2
      3100 3200 (by decide) (by decide)⟩

lemma preScore_bonus_cap :
    preScore 1 2 3 4 "aaaaaaaaaaaaaaaaaaaaaaaaaaaaaaa" "m" "CONTRIBUTING.md" 2 1 ≤ 3000 := by
  rw [preScore_eq_base_add, updateMultiplier_eq_zero (by norm_num),
    creationBoost_eq_zero (by norm_num)]
  split_ifs <;> norm_num

/-- C8: below the compression threshold, the description bonus and the
guidelines bonus are exact and independent additive increments: relative to
a repository with description and motivation of at most 30 bytes and empty
guidelines, a description longer than 30 bytes adds exactly 50, non-empty
guidelines add exactly 100, and together they add exactly 150. -/
theorem C8_bonuses (forks subs stars issues : ℕ) (desc1 desc2 mot g : String) (d dc : ℚ)
    (h1 : 30 < desc1.utf8ByteSize) (h2 : desc2.utf8ByteSize ≤ 30)
    (hm : mot.utf8ByteSize ≤ 30) (hg : g ≠ "")
    (hcap : preScore forks subs stars issues desc1 mot g d dc ≤ 3000) :
    finalScore forks subs stars issues desc1 mot "" d dc =
      finalScore forks subs stars issues desc2 mot "" d dc + 50 ∧
    finalScore forks subs stars issues desc2 mot g d dc =
      finalScore forks subs stars issues desc2 mot "" d dc + 100 ∧
    finalScore forks subs stars issues desc1 mot g d dc =
      finalScore forks subs stars issues desc2 mot "" d dc + 150 := by
  have hc2 : ¬(30 < desc2.utf8ByteSize ∨ 30 < mot.utf8ByteSize) := by omega
  have p0 : preScore forks subs stars issues desc2 mot "" d dc =
      (engagementScore forks subs stars issues : ℤ) * updateMultiplier d
        + boostBase d * creationBoost dc := by
    rw [preScore_eq_base_add, if_neg hc2, if_neg (fun h => h rfl)]
    ring
  have p1 : preScore forks subs stars issues desc1 mot "" d dc =
      (engagementScore forks subs stars issues : ℤ) * updateMultiplier d
        + boostBase d * creationBoost dc + 50 := by
    rw [preScore_eq_base_add, if_pos (Or.inl h1), if_neg (fun h => h rfl)]
    ring
  have p2 : preScore forks subs stars issues desc2 mot g d dc =
      (engagementScore forks subs stars issues : ℤ) * updateMultiplier d
        + boostBase d * creationBoost dc + 100 := by
    rw [preScore_eq_base_add, if_neg hc2, if_pos hg]
    ring
  have p3 : preScore forks subs stars issues desc1 mot g d dc =
      (engagementScore forks subs stars issues : ℤ) * updateMultiplier d
        + boostBase d * creationBoost dc + 150 := by
    rw [preScore_eq_base_add, if_pos (Or.inl h1), if_pos hg]
    ring
  rw [p3] at hcap
  refine ⟨?_, ?_, ?_⟩
  · rw [finalScore, finalScore, p1, p0, logCompress_of_le (by omega),
      logCompress_of_le (by omega)]
    omega
  · rw [finalScore, finalScore, p2, p0, logCompress_of_le (by omega),
      logCompress_of_le (by omega)]
    omega
  · rw [finalScore, finalScore, p3, p0, logCompress_of_le (by omega),
      logCompress_of_le (by omega)]
    omega

/-- Witness for C8 with a 31-byte description against a 5-byte one, a
short motivation, CONTRIBUTING.md guidelines, and a stale repository (so
the pre-compression scores stay far below the threshold). -/
theorem C8_bonuses_witness :
    (30 < ("aaaaaaaaaaaaaaaaaaaaaaaaaaaaaaa" : String).utf8ByteSize ∧
      ("short" : String).utf8ByteSize ≤ 30 ∧ ("m" : String).utf8ByteSize ≤ 30 ∧
      ("CONTRIBUTING.md" : String) ≠ "") ∧
    (finalScore 1 2 3 4 "aaaaaaaaaaaaaaaaaaaaaaaaaaaaaaa" "m" "" 2 1 =
      finalScore 1 2 3 4 "short" "m" "" 2 1 + 50 ∧
    finalScore 1 2 3 4 "short" "m" "CONTRIBUTING.md" 2 1 =
      finalScore 1 2 3 4 "short" "m" "" 2 1 + 100 ∧
    finalScore 1 2 3 4 "aaaaaaaaaaaaaaaaaaaaaaaaaaaaaaa" "m" "CONTRIBUTING.md" 2 1 =
      finalScore 1 2 3 4 "short" "m" "" 2 1 + 150) :=
  ⟨⟨by decide, by decide, by decide, by decide⟩,
    C8_bonuses 1 2 3 4 "aaaaaaaaaaaaaaaaaaaaaaaaaaaaaaa" "short" "m" "CONTRIBUTING.md" 2 1
      (by decide) (by decide) (by decide) (by decide) preScore_bonus_cap⟩

/-- C9: holding everything else fixed, increasing the forks, subscribers,
or stargazers counter never decreases the pre-compression score: the
engagement sum is monotone in each counter and the recency multiplier it is
scaled by is non-negative. -/
theorem C9_monotonicity (forks forks2 subs subs2 stars stars2 issues : ℕ)
    (desc mot g : String) (d dc : ℚ) :
    (forks ≤ forks2 →
      preScore forks subs stars issues desc mot g d dc ≤
        preScore forks2 subs stars issues desc mot g d dc) ∧
    (subs ≤ subs2 →
      preScore forks subs stars issues desc mot g d dc ≤
        preScore forks subs2 stars issues desc mot g d dc) ∧
    (stars ≤ stars2 →
      preScore forks subs stars issues desc mot g d dc ≤
        preScore forks subs stars2 issues desc mot g d dc) := by
  refine ⟨fun h => preScore_le_of_engagement_le ?_ desc mot g d dc,
    fun h => preScore_le_of_engagement_le ?_ desc mot g d dc,
    fun h => preScore_le_of_engagement_le ?_ desc mot g d dc⟩ <;>
    simp only [engagementScore] <;> omega

/-- Witness for C9 at concrete counters. -/
theorem C9_monotonicity_witness :
    (1 : ℕ) ≤ 2 ∧
      preScore 1 5 6 7 "d" "m" "" 0 0 ≤ preScore 2 5 6 7 "d" "m" "" 0 0 :=
  ⟨by decide, (C9_monotonicity 1 2 5 5 6 6 7 "d" "m" "" 0 0).1 (by decide)⟩

/-- C10: a repository last updated more than one day ago and created before
the evaluation instant, with short description and motivation and empty
guidelines, scores exactly -50 whatever its counters: the recency
multiplier and the creation factor both truncate to 0, wiping out the
engagement sum and the boost, and the final normalization subtracts the
baseline 50. -/
theorem C10_stale_repo (forks subs stars issues : ℕ) (description : String)
    (m : InnerSourceMetadata) (u c now : ℚ)
    (hd : 1 < now - u) (hdc : 0 < now - c)
    (hdesc : description.utf8ByteSize ≤ 30)
    (hmot : m.Motivation.utf8ByteSize ≤ 30) (hg : m.Guidelines = "") :
    GetRepositoryActivityScore
      ⟨⟨some forks, some subs, some stars, some issues, some description, u, c⟩, m⟩ now =
      (Except.ok (-50), { m with Score := -50 }) := by
  have hc1 : ¬(30 < description.utf8ByteSize ∨ 30 < m.Motivation.utf8ByteSize) := by omega
  have hpre : preScore forks subs stars issues description m.Motivation m.Guidelines
      (now - u) (now - c) = 0 := by
    rw [preScore_eq_base_add, hg, updateMultiplier_eq_zero hd, creationBoost_eq_zero hdc,
      if_neg hc1, if_neg (fun h => h rfl)]
    ring
  rw [compute_ok, finalScore, hpre, logCompress_of_le (by norm_num)]
  norm_num

/-- Witness for C10 with non-zero counters, two days since the last update
and one day since creation. -/
theorem C10_stale_repo_witness :
    GetRepositoryActivityScore
      ⟨⟨some 9, some 8, some 7, some 6, some "short", 8, 9⟩,
        ⟨"t", "m", [], [], "", "", "", "", "", 3⟩⟩ 10 =
      (Except.ok (-50), ⟨"t", "m", [], [], "", "", "", "", "", -50⟩) :=
  C10_stale_repo 9 8 7 6 "short" ⟨"t", "m", [], [], "", "", "", "", "", 3⟩ 8 9 10
    (by norm_num) (by norm_num) (by decide) (by decide) rfl
